import Mathlib

/-!
Shallow embedding of `src/apps/atlas/src/app.rs` (the only source file of the
repository) and proofs about its settings edit/commit/cancel state machine and
its persisted-state lifecycle.

Modelling notes, all taken from the source:
* `NapkinService`, `NapkinSettings`, `Theme`, `AtlasApp` mirror the Rust
  structs field for field (`value : f32` is carried as a Lean `Float`; no
  arithmetic is ever performed on it in the source).
* Persistence (`#[derive(Serialize, Deserialize)]`, `#[serde(default)]` on the
  container, `#[serde(skip)]` on `value`): a successfully parsed snapshot is a
  `PersistedRecord` whose fields are `Option`s (a missing field is `none` and
  is filled from the `Default` instance of `AtlasApp`, per the container-level
  `serde(default)`); the skipped field `value` is never serialized and on
  deserialization takes the own default of the field type (`f32::default() = 0.0`),
  per the documented serde `skip` semantics.
* `AtlasApp.new` receives `Option (Option PersistedRecord)`: the outer layer is
  `cc.storage` being present, the inner layer is `eframe::get_value` returning
  `Some` (key present and deserialization succeeded) or `None` (absence or
  failure), followed by `unwrap_or_default()`.
* The per-frame UI functions are embedded as state transformers over
  `AtlasApp`, with the interaction events of the frame passed in explicitly:
  the "Settings" menu item click (app.rs lines 115-118), the Ctrl+B shortcut
  check at the end of `central_panel` (lines 210-212), and `settings_window`
  (lines 215-259) with its per-frame events (text edits to the draft, the
  egui title-bar close affordance that writes `false` through
  `.open(&mut app.settings_window_open)`, and the Cancel/Save button clicks).
-/

namespace Napkin

/-- The `NapkinService` struct: host and port of the LLM service, both strings. -/
structure NapkinService where
  host : String
  port : String
deriving DecidableEq, Repr

/-- The `NapkinSettings` struct: model name plus the service endpoint. -/
structure NapkinSettings where
  model : String
  service : NapkinService
deriving DecidableEq, Repr

/-- `NapkinSettings::default` from app.rs lines 18-28. -/
def NapkinSettings.default : NapkinSettings :=
  { model := "mistral"
    service := { host := "localhost", port := "11434" } }

/-- The `Theme` enum from app.rs lines 30-34. -/
inductive Theme where
  | Light : Theme
  | Dark : Theme
deriving DecidableEq, Repr

/-- The `AtlasApp` struct from app.rs lines 37-49, fields in source order.
`value` is the `#[serde(skip)]` f32 field. -/
structure AtlasApp where
  label : String
  value : Float
  theme : Theme
  side_panel_open : Bool
  settings_window_open : Bool
  napkin_settings : NapkinSettings
  napkin_temp_settings : NapkinSettings

/-- `impl Default for AtlasApp` from app.rs lines 51-64. -/
def AtlasApp.default : AtlasApp :=
  { label := "Hello World!"
    value := 2.7
    theme := Theme.Dark
    side_panel_open := true
    settings_window_open := false
    napkin_settings := NapkinSettings.default
    napkin_temp_settings := NapkinSettings.default }

/-- A structurally parsed snapshot: one `Option` per serialized field of
`AtlasApp` (the container-level `#[serde(default)]` makes every field
optional, filled from `AtlasApp::default()` when missing). `value` is
`#[serde(skip)]` and has no slot in the snapshot. -/
structure PersistedRecord where
  label : Option String
  theme : Option Theme
  side_panel_open : Option Bool
  settings_window_open : Option Bool
  napkin_settings : Option NapkinSettings
  napkin_temp_settings : Option NapkinSettings

/-- Deserialization of a parsed snapshot per the serde derive on `AtlasApp`:
missing fields are filled from `AtlasApp::default()` (container
`serde(default)`); the skipped field `value` takes `f32::default() = 0.0`
(field-level `serde(skip)` semantics, independent of the container default). -/
def PersistedRecord.deserialize (r : PersistedRecord) : AtlasApp :=
  { label := r.label.getD AtlasApp.default.label
    value := (0 : Float)
    theme := r.theme.getD AtlasApp.default.theme
    side_panel_open := r.side_panel_open.getD AtlasApp.default.side_panel_open
    settings_window_open := r.settings_window_open.getD AtlasApp.default.settings_window_open
    napkin_settings := r.napkin_settings.getD AtlasApp.default.napkin_settings
    napkin_temp_settings := r.napkin_temp_settings.getD AtlasApp.default.napkin_temp_settings }

/-- `eframe::App::save` (app.rs lines 92-94): `set_value(storage, APP_KEY, self)`
serializes every field of `AtlasApp` except the `#[serde(skip)]` field
`value`. -/
def AtlasApp.save (a : AtlasApp) : PersistedRecord :=
  { label := some a.label
    theme := some a.theme
    side_panel_open := some a.side_panel_open
    settings_window_open := some a.settings_window_open
    napkin_settings := some a.napkin_settings
    napkin_temp_settings := some a.napkin_temp_settings }

/-- `AtlasApp::new` (app.rs lines 68-79): if storage is present, return
`eframe::get_value(storage, APP_KEY).unwrap_or_default()`; otherwise return
`Default::default()`. The outer `Option` is `cc.storage`; the inner one is
the result of `get_value` (`none` on key absence or deserialization failure). -/
def AtlasApp.new (storage : Option (Option PersistedRecord)) : AtlasApp :=
  match storage with
  | some got => (got.map PersistedRecord.deserialize).getD AtlasApp.default
  | none => AtlasApp.default

/-- `AtlasApp::save_settings` (app.rs lines 81-83):
`self.napkin_settings = self.napkin_temp_settings.clone()`. -/
def AtlasApp.save_settings (a : AtlasApp) : AtlasApp :=
  { a with napkin_settings := a.napkin_temp_settings }

/-- `AtlasApp::revert_settings` (app.rs lines 85-87):
`self.napkin_temp_settings = self.napkin_settings.clone()`. -/
def AtlasApp.revert_settings (a : AtlasApp) : AtlasApp :=
  { a with napkin_temp_settings := a.napkin_settings }

/-- The "Settings" menu item click handler inside `AtlasApp::update`
(app.rs lines 116-118): `self.settings_window_open = true;` and nothing else. -/
def click_settings (a : AtlasApp) : AtlasApp :=
  { a with settings_window_open := true }

/-- The Ctrl+B check at the end of `central_panel` (app.rs lines 210-212):
when the frame input has Ctrl held and B pressed, flip `side_panel_open`. -/
def central_panel_shortcut (ctrl_b : Bool) (a : AtlasApp) : AtlasApp :=
  if ctrl_b then { a with side_panel_open := !a.side_panel_open } else a

/-- The committed-settings readout rendered by `central_panel`
(app.rs line 202). -/
def central_panel_readout (a : AtlasApp) : String :=
  "Host: " ++ a.napkin_settings.service.host ++ ", Port: " ++ a.napkin_settings.service.port

/-- The interaction events `settings_window` can observe in one frame while the
window is shown: the value of the draft after the text edits of this frame
(`text_edit_singleline` mutates `napkin_temp_settings` in place), whether the
egui title-bar close affordance was clicked (egui then writes `false` through
`.open(&mut app.settings_window_open)`), and whether the Cancel / Save buttons
were clicked. -/
structure SettingsFrameInput where
  editedDraft : NapkinSettings
  closeClicked : Bool
  cancelClicked : Bool
  saveClicked : Bool

/-- `settings_window` (app.rs lines 215-259). If the window is not open the
body does not run and nothing changes. Otherwise: the text edits leave the
draft at `editedDraft`; egui sets `settings_window_open` to `false` exactly
when the title-bar close was clicked; `should_close` is set by the Cancel or
Save buttons and `should_save` by Save; finally, if `should_close`, the window
flag is cleared and `save_settings` (when `should_save`) or `revert_settings`
runs. -/
def settings_window (a : AtlasApp) (inp : SettingsFrameInput) : AtlasApp :=
  if a.settings_window_open then
    let a1 : AtlasApp :=
      { a with
          napkin_temp_settings := inp.editedDraft
          settings_window_open := !inp.closeClicked }
    let should_close := inp.cancelClicked || inp.saveClicked
    let should_save := inp.saveClicked
    if should_close then
      let a2 : AtlasApp := { a1 with settings_window_open := false }
      if should_save then a2.save_settings else a2.revert_settings
    else a1
  else a

/-! Theorems about the claims. -/

/-- C1 (counterexample): the claim says a Closed-to-Open transition sets the
draft to a copy of the committed settings regardless of prior stale draft
contents. It is false: clicking the "Settings" menu item only raises the
window flag; at a concrete Closed state whose draft is stale, the dialog opens
with the draft still different from committed. -/
theorem click_settings_stale_draft_cex :
    ({ AtlasApp.default with
        napkin_temp_settings := ⟨"edited", ⟨"h", "p"⟩⟩ } : AtlasApp).settings_window_open
        = false ∧
    (click_settings { AtlasApp.default with
        napkin_temp_settings := ⟨"edited", ⟨"h", "p"⟩⟩ }).settings_window_open = true ∧
    (click_settings { AtlasApp.default with
        napkin_temp_settings := ⟨"edited", ⟨"h", "p"⟩⟩ }).napkin_temp_settings ≠
      (click_settings { AtlasApp.default with
        napkin_temp_settings := ⟨"edited", ⟨"h", "p"⟩⟩ }).napkin_settings := by
  refine ⟨rfl, rfl, ?_⟩
  simp [click_settings, AtlasApp.default, NapkinSettings.default]

/-- C1 (amended): the Closed-to-Open transition (clicking the "Settings" menu
item) sets the window flag to true and leaves both the draft and the committed
settings unchanged; in particular the dialog opens showing committed values
exactly when the draft already equals committed, not regardless of stale draft
contents. -/
theorem click_settings_no_draft_reset (a : AtlasApp) :
    (click_settings a).settings_window_open = true ∧
    (click_settings a).napkin_temp_settings = a.napkin_temp_settings ∧
    (click_settings a).napkin_settings = a.napkin_settings ∧
    ((click_settings a).napkin_temp_settings = (click_settings a).napkin_settings ↔
      a.napkin_temp_settings = a.napkin_settings) :=
  ⟨rfl, rfl, rfl, Iff.rfl⟩

/-- C2 (counterexample): the claim says a title-bar close has the same effect
as Cancel (draft reset to committed). It is false: at a concrete open state,
a frame in which only the title-bar close affordance fires closes the dialog
but leaves the edited draft in place, still different from committed. -/
theorem titlebar_close_retains_edits_cex :
    (settings_window { AtlasApp.default with settings_window_open := true }
        ⟨⟨"edited", ⟨"h", "p"⟩⟩, true, false, false⟩).settings_window_open = false ∧
    (settings_window { AtlasApp.default with settings_window_open := true }
        ⟨⟨"edited", ⟨"h", "p"⟩⟩, true, false, false⟩).napkin_temp_settings ≠
      (settings_window { AtlasApp.default with settings_window_open := true }
        ⟨⟨"edited", ⟨"h", "p"⟩⟩, true, false, false⟩).napkin_settings := by
  constructor
  · rfl
  · simp [settings_window, AtlasApp.default, NapkinSettings.default]

/-- C2 (amended): a title-bar close with neither button clicked closes the
dialog but runs neither `save_settings` nor `revert_settings`: the draft keeps
the edits of the frame and the committed settings are untouched; only the
Cancel (or Save) button paths run the revert/save side effects. -/
theorem titlebar_close_no_revert (a : AtlasApp) (inp : SettingsFrameInput)
    (hopen : a.settings_window_open = true) (hclose : inp.closeClicked = true)
    (hcancel : inp.cancelClicked = false) (hsave : inp.saveClicked = false) :
    settings_window a inp =
      { a with
          settings_window_open := false
          napkin_temp_settings := inp.editedDraft } := by
  simp [settings_window, hopen, hclose, hcancel, hsave]

/-- C2 (witness): the amended theorem applied at a concrete open state and a
concrete title-bar-close frame. -/
theorem titlebar_close_no_revert_witness :
    settings_window { AtlasApp.default with settings_window_open := true }
        ⟨⟨"edited", ⟨"h", "p"⟩⟩, true, false, false⟩ =
      { AtlasApp.default with
          settings_window_open := false
          napkin_temp_settings := ⟨"edited", ⟨"h", "p"⟩⟩ } :=
  titlebar_close_no_revert { AtlasApp.default with settings_window_open := true }
    ⟨⟨"edited", ⟨"h", "p"⟩⟩, true, false, false⟩ rfl rfl rfl rfl

/-- C3: when Save fires while the dialog is open, the committed settings are
replaced by the draft as one whole-struct assignment (hence all three
sub-fields model, service.host, service.port are replaced together), and the
dialog closes. -/
theorem save_commits_whole_struct (a : AtlasApp) (inp : SettingsFrameInput)
    (hopen : a.settings_window_open = true) (hsave : inp.saveClicked = true) :
    (settings_window a inp).napkin_settings = inp.editedDraft ∧
    (settings_window a inp).napkin_settings.model = inp.editedDraft.model ∧
    (settings_window a inp).napkin_settings.service.host = inp.editedDraft.service.host ∧
    (settings_window a inp).napkin_settings.service.port = inp.editedDraft.service.port ∧
    (settings_window a inp).settings_window_open = false := by
  simp [settings_window, hopen, hsave, AtlasApp.save_settings]

/-- C3 (witness): Save at a concrete open state with a concrete edited draft
commits exactly that draft and closes the window. -/
theorem save_commits_whole_struct_witness :
    (settings_window { AtlasApp.default with settings_window_open := true }
        ⟨⟨"m2", ⟨"h2", "p2"⟩⟩, false, false, true⟩).napkin_settings = ⟨"m2", ⟨"h2", "p2"⟩⟩ ∧
    (settings_window { AtlasApp.default with settings_window_open := true }
        ⟨⟨"m2", ⟨"h2", "p2"⟩⟩, false, false, true⟩).napkin_settings.model = "m2" ∧
    (settings_window { AtlasApp.default with settings_window_open := true }
        ⟨⟨"m2", ⟨"h2", "p2"⟩⟩, false, false, true⟩).napkin_settings.service.host = "h2" ∧
    (settings_window { AtlasApp.default with settings_window_open := true }
        ⟨⟨"m2", ⟨"h2", "p2"⟩⟩, false, false, true⟩).napkin_settings.service.port = "p2" ∧
    (settings_window { AtlasApp.default with settings_window_open := true }
        ⟨⟨"m2", ⟨"h2", "p2"⟩⟩, false, false, true⟩).settings_window_open = false :=
  save_commits_whole_struct { AtlasApp.default with settings_window_open := true }
    ⟨⟨"m2", ⟨"h2", "p2"⟩⟩, false, false, true⟩ rfl rfl

/-- C4: processing a Cancel click (Save not fired that frame) leaves the
committed settings unchanged no matter what the draft was edited to, resets
the draft to committed, and closes the dialog. -/
theorem cancel_preserves_committed (a : AtlasApp) (inp : SettingsFrameInput)
    (hopen : a.settings_window_open = true)
    (hcancel : inp.cancelClicked = true) (hsave : inp.saveClicked = false) :
    (settings_window a inp).napkin_settings = a.napkin_settings ∧
    (settings_window a inp).napkin_temp_settings = a.napkin_settings ∧
    (settings_window a inp).settings_window_open = false := by
  simp [settings_window, hopen, hcancel, hsave, AtlasApp.revert_settings]

/-- C4 (witness): Cancel at a concrete open state with a concrete edited draft
keeps committed at its prior value and resets the draft to it. -/
theorem cancel_preserves_committed_witness :
    (settings_window { AtlasApp.default with settings_window_open := true }
        ⟨⟨"m2", ⟨"h2", "p2"⟩⟩, false, true, false⟩).napkin_settings =
      ({ AtlasApp.default with settings_window_open := true } : AtlasApp).napkin_settings ∧
    (settings_window { AtlasApp.default with settings_window_open := true }
        ⟨⟨"m2", ⟨"h2", "p2"⟩⟩, false, true, false⟩).napkin_temp_settings =
      ({ AtlasApp.default with settings_window_open := true } : AtlasApp).napkin_settings ∧
    (settings_window { AtlasApp.default with settings_window_open := true }
        ⟨⟨"m2", ⟨"h2", "p2"⟩⟩, false, true, false⟩).settings_window_open = false :=
  cancel_preserves_committed { AtlasApp.default with settings_window_open := true }
    ⟨⟨"m2", ⟨"h2", "p2"⟩⟩, false, true, false⟩ rfl rfl rfl

/-- C5: loading with no prior snapshot (no storage at all, or storage without
a readable snapshot) yields exactly the documented defaults: theme=Dark,
sidePanelOpen=true, settingsWindowOpen=false, model="mistral",
host="localhost", port="11434". -/
theorem new_defaults_without_snapshot :
    ((AtlasApp.new none).theme = Theme.Dark ∧
     (AtlasApp.new none).side_panel_open = true ∧
     (AtlasApp.new none).settings_window_open = false ∧
     (AtlasApp.new none).napkin_settings.model = "mistral" ∧
     (AtlasApp.new none).napkin_settings.service.host = "localhost" ∧
     (AtlasApp.new none).napkin_settings.service.port = "11434") ∧
    ((AtlasApp.new (some none)).theme = Theme.Dark ∧
     (AtlasApp.new (some none)).side_panel_open = true ∧
     (AtlasApp.new (some none)).settings_window_open = false ∧
     (AtlasApp.new (some none)).napkin_settings.model = "mistral" ∧
     (AtlasApp.new (some none)).napkin_settings.service.host = "localhost" ∧
     (AtlasApp.new (some none)).napkin_settings.service.port = "11434") :=
  ⟨⟨rfl, rfl, rfl, rfl, rfl, rfl⟩, ⟨rfl, rfl, rfl, rfl, rfl, rfl⟩⟩

/-- C6: load never fails the caller. For every storage content, `AtlasApp.new`
returns a state: absent storage or a snapshot that fails to deserialize yields
the full defaults, and a structurally parsed snapshot has every missing field
substituted by its documented default (field-level default filling); no error
value exists in the signature to surface. -/
theorem new_never_fails (st : Option (Option PersistedRecord)) :
    (st = none ∨ st = some none → AtlasApp.new st = AtlasApp.default) ∧
    (∀ r : PersistedRecord, st = some (some r) →
      (r.label = none → (AtlasApp.new st).label = "Hello World!") ∧
      (r.theme = none → (AtlasApp.new st).theme = Theme.Dark) ∧
      (r.side_panel_open = none → (AtlasApp.new st).side_panel_open = true) ∧
      (r.settings_window_open = none → (AtlasApp.new st).settings_window_open = false) ∧
      (r.napkin_settings = none →
        (AtlasApp.new st).napkin_settings = NapkinSettings.default) ∧
      (r.napkin_temp_settings = none →
        (AtlasApp.new st).napkin_temp_settings = NapkinSettings.default)) := by
  constructor
  · rintro (rfl | rfl) <;> rfl
  · rintro r rfl
    refine ⟨?_, ?_, ?_, ?_, ?_, ?_⟩ <;> intro h <;>
      simp [AtlasApp.new, PersistedRecord.deserialize, h, AtlasApp.default]

/-- C6 (witness): the theorem applied at a failed-deserialization storage and
at a parsed snapshot with every field missing. -/
theorem new_never_fails_witness :
    AtlasApp.new (some none) = AtlasApp.default ∧
    (AtlasApp.new (some (some ⟨none, none, none, none, none, none⟩))).label
      = "Hello World!" ∧
    (AtlasApp.new (some (some ⟨none, none, none, none, none, none⟩))).theme
      = Theme.Dark ∧
    (AtlasApp.new (some (some ⟨none, none, none, none, none, none⟩))).side_panel_open
      = true ∧
    (AtlasApp.new (some (some ⟨none, none, none, none, none, none⟩))).settings_window_open
      = false ∧
    (AtlasApp.new (some (some ⟨none, none, none, none, none, none⟩))).napkin_settings
      = NapkinSettings.default ∧
    (AtlasApp.new (some (some ⟨none, none, none, none, none, none⟩))).napkin_temp_settings
      = NapkinSettings.default := by
  have h := (new_never_fails (some (some ⟨none, none, none, none, none, none⟩))).2
    ⟨none, none, none, none, none, none⟩ rfl
  exact ⟨(new_never_fails (some none)).1 (Or.inr rfl), h.1 rfl, h.2.1 rfl, h.2.2.1 rfl,
    h.2.2.2.1 rfl, h.2.2.2.2.1 rfl, h.2.2.2.2.2 rfl⟩

/-- C7: save followed immediately by load reproduces the prior state
field-for-field, except the transient `value` field, which is never serialized
and comes back as its default (the `f32` field default that the serde `skip`
attribute substitutes on deserialization). -/
theorem save_then_load_round_trip (a : AtlasApp) :
    AtlasApp.new (some (some a.save)) = { a with value := (0 : Float) } := rfl

/-- C8 (counterexample): the claim says the draft never carries in-progress
edits across a process restart independently of the committed settings. It is
false: `napkin_temp_settings` is a serialized field, so a concrete state whose
draft differs from committed round-trips through save and load with the stale
draft intact and still different from committed. -/
theorem draft_survives_restart_cex :
    (AtlasApp.new (some (some (AtlasApp.save { AtlasApp.default with
        napkin_temp_settings := ⟨"edited", ⟨"h", "p"⟩⟩ })))).napkin_temp_settings
      = ⟨"edited", ⟨"h", "p"⟩⟩ ∧
    (AtlasApp.new (some (some (AtlasApp.save { AtlasApp.default with
        napkin_temp_settings := ⟨"edited", ⟨"h", "p"⟩⟩ })))).napkin_temp_settings ≠
    (AtlasApp.new (some (some (AtlasApp.save { AtlasApp.default with
        napkin_temp_settings := ⟨"edited", ⟨"h", "p"⟩⟩ })))).napkin_settings := by
  constructor
  · rfl
  · simp [AtlasApp.new, AtlasApp.save, PersistedRecord.deserialize, AtlasApp.default,
      NapkinSettings.default]

/-- C8 (amended): the draft buffer is serialized and restored with the rest of
the state, so it does have an identity across sessions: a save/load restart
preserves the draft even when it differs from committed, and the
Closed-to-Open transition does not overwrite it either; within a session the
draft is overwritten only by the revert path. -/
theorem draft_persisted_and_not_reset (a : AtlasApp) :
    (AtlasApp.new (some (some a.save))).napkin_temp_settings = a.napkin_temp_settings ∧
    (click_settings a).napkin_temp_settings = a.napkin_temp_settings ∧
    a.revert_settings.napkin_temp_settings = a.napkin_settings :=
  ⟨rfl, rfl, rfl⟩

/-- C9: the Ctrl+B shortcut handler toggles `side_panel_open` in every state
(the settings-dialog flag is arbitrary, so also when the dialog is open); its
effect on `side_panel_open` is a function of the key event and the prior
`side_panel_open` alone, and it leaves the whole settings edit session
(committed, draft, window flag) unchanged. -/
theorem ctrl_b_toggles_panel_only (ctrl_b : Bool) (a : AtlasApp) :
    (central_panel_shortcut ctrl_b a).side_panel_open =
      (if ctrl_b then !a.side_panel_open else a.side_panel_open) ∧
    (central_panel_shortcut true a).side_panel_open = !a.side_panel_open ∧
    (central_panel_shortcut ctrl_b a).napkin_settings = a.napkin_settings ∧
    (central_panel_shortcut ctrl_b a).napkin_temp_settings = a.napkin_temp_settings ∧
    (central_panel_shortcut ctrl_b a).settings_window_open = a.settings_window_open ∧
    (central_panel_shortcut ctrl_b a).theme = a.theme ∧
    (central_panel_shortcut ctrl_b a).label = a.label := by
  cases ctrl_b <;> simp [central_panel_shortcut]

/-- C10: after a terminal button of the dialog (Save or Cancel) is processed in
a frame, committed equals draft; `save_settings` establishes the invariant by
copying the draft into committed, `revert_settings` by copying committed into
the draft, and both operations are idempotent. -/
theorem terminal_buttons_equalize (a : AtlasApp) (inp : SettingsFrameInput)
    (hopen : a.settings_window_open = true)
    (hterm : inp.saveClicked = true ∨ inp.cancelClicked = true) :
    (settings_window a inp).napkin_settings = (settings_window a inp).napkin_temp_settings ∧
    a.save_settings.napkin_settings = a.napkin_temp_settings ∧
    a.revert_settings.napkin_temp_settings = a.napkin_settings ∧
    a.save_settings.save_settings = a.save_settings ∧
    a.revert_settings.revert_settings = a.revert_settings := by
  refine ⟨?_, rfl, rfl, rfl, rfl⟩
  rcases hterm with h | h
  · simp [settings_window, hopen, h, AtlasApp.save_settings]
  · cases hs : inp.saveClicked
    · simp [settings_window, hopen, h, hs, AtlasApp.revert_settings]
    · simp [settings_window, hopen, h, hs, AtlasApp.save_settings]

/-- C10 (witness): the theorem applied at a concrete open state and a concrete
Save frame. -/
theorem terminal_buttons_equalize_witness :
    (settings_window { AtlasApp.default with settings_window_open := true }
        ⟨⟨"m2", ⟨"h2", "p2"⟩⟩, false, false, true⟩).napkin_settings =
      (settings_window { AtlasApp.default with settings_window_open := true }
        ⟨⟨"m2", ⟨"h2", "p2"⟩⟩, false, false, true⟩).napkin_temp_settings ∧
    ({ AtlasApp.default with settings_window_open := true } : AtlasApp).save_settings.napkin_settings =
      ({ AtlasApp.default with settings_window_open := true } : AtlasApp).napkin_temp_settings ∧
    ({ AtlasApp.default with settings_window_open := true } : AtlasApp).revert_settings.napkin_temp_settings =
      ({ AtlasApp.default with settings_window_open := true } : AtlasApp).napkin_settings ∧
    ({ AtlasApp.default with settings_window_open := true } : AtlasApp).save_settings.save_settings =
      ({ AtlasApp.default with settings_window_open := true } : AtlasApp).save_settings ∧
    ({ AtlasApp.default with settings_window_open := true } : AtlasApp).revert_settings.revert_settings =
      ({ AtlasApp.default with settings_window_open := true } : AtlasApp).revert_settings :=
  terminal_buttons_equalize { AtlasApp.default with settings_window_open := true }
    ⟨⟨"m2", ⟨"h2", "p2"⟩⟩, false, false, true⟩ rfl (Or.inl rfl)

end Napkin
